import Mathlib

/-!
Shallow embedding of `src/codecatalyst/commands.ts` (the command-binding
layer of the CodeCatalyst extension).

Modelling conventions:
* Every async command is embedded as a pure function returning
  `Res α := List Event × Except Err α`: the list records, in order, the
  observable calls the command makes to its external collaborators
  (the remote client, the wizard, the prompt subsystem, telemetry, the
  editor command executor), and the `Except` is the settled outcome
  (`.ok` for a fulfilled promise, `.error` for a rejection).
* External collaborators (the wizard `selectCodeCatalystResource`, the
  confirmation prompt, the PAT lookup, `getRepoCloneUrl`) are black boxes
  per the spec; their observed responses are passed in as parameters.
* JS `throw` of `CancellationError`, `ToolkitError` and `Error` becomes
  the `Err` inductive below.
* A `Client` carries only what `commands.ts` reads from it: `connected`,
  `identity`, and the one remote method whose response value is
  propagated (`updateDevEnvironment`, abstracted over its response
  type `υ`).
-/

/-- Errors thrown by the command layer. `cancellation` is
`CancellationError(agent)`, `toolkit` is `ToolkitError(message, { code })`,
`jsError` is a plain JS `Error(message)`. -/
inductive Err where
  | cancellation (agent : String)
  | toolkit (message : String) (code : String)
  | jsError (message : String)
  deriving DecidableEq, Repr

/-- Request shape `{ id, projectName, spaceName }` sent by `stopDevEnv`
(lines 109-113) and `deleteDevEnv` (lines 117-121). -/
structure DevEnvLocator where
  id : String
  projectName : String
  spaceName : String
  deriving DecidableEq, Repr

/-- `PersistentStorage` of the client API types (external): a size. -/
structure PersistentStorage where
  sizeInGiB : Nat
  deriving DecidableEq, Repr

/-- `DevEnvironmentSettings = Pick<CreateDevEnvironmentRequest,
'alias' | 'instanceType' | 'inactivityTimeoutMinutes' | 'persistentStorage'>`
(lines 124-127); every picked field is optional in the request type. -/
structure DevEnvironmentSettings where
  «alias» : Option String
  instanceType : Option String
  inactivityTimeoutMinutes : Option Nat
  persistentStorage : Option PersistentStorage
  deriving DecidableEq, Repr

/-- Request sent by `updateDevEnv` (lines 134-139): the spread of the
settings followed by the id triple. -/
structure UpdateDevEnvironmentRequest where
  «alias» : Option String
  instanceType : Option String
  inactivityTimeoutMinutes : Option Nat
  persistentStorage : Option PersistentStorage
  id : String
  projectName : String
  spaceName : String
  deriving DecidableEq, Repr

/-- A named entity (`{ name: string }`), as read off `devenv.project`,
`devenv.org`, `r.project`, `r.org`. -/
structure Named where
  name : String
  deriving DecidableEq, Repr

/-- `DevEnvironmentId` (from `./model`, external): the id triple
`commands.ts` reads: `devenv.id`, `devenv.project.name`, `devenv.org.name`. -/
structure DevEnvironmentId where
  id : String
  project : Named
  org : Named
  deriving DecidableEq, Repr

/-- A source repository as returned by the `'repo'` wizard: `commands.ts`
reads `r.name`, `r.project.name`, `r.org.name` (line 50). -/
structure CodeCatalystRepo where
  name : String
  project : Named
  org : Named
  deriving DecidableEq, Repr

/-- A resource as returned by the wizard for `openCodeCatalystResource`
and handed to `openCodeCatalystUrl`; opaque to this layer. -/
structure CodeCatalystResource where
  type : String
  name : String
  deriving DecidableEq, Repr

/-- Observable calls made by the command layer, in program order. -/
inductive Event where
  /-- The client factory passed to `createClientInjector` is awaited
  (line 147). -/
  | clientFactoryCall
  /-- The `client.connected` check of the injector (line 150), with the
  value read. -/
  | connectivityCheck (connected : Bool)
  /-- `selectCodeCatalystResource(client, kind)` (wizard, external). -/
  | selectResource (kind : String)
  /-- `auth.getPat(client)` (lines 38-42). -/
  | getPat
  /-- `getRepoCloneUrl(client, request, userName, pat)` (lines 59-68). -/
  | getRepoCloneUrlCall (spaceName projectName sourceRepositoryName userName pat : String)
  /-- `openCodeCatalystUrl(resource)` (line 88). -/
  | openUrl (resource : CodeCatalystResource)
  /-- `showConfirmationMessage({ prompt })` (lines 97-102). -/
  | confirmationPrompt (message : String)
  /-- `client.stopDevEnvironment(request)` (lines 109-113). -/
  | stopDevEnvironmentCall (request : DevEnvLocator)
  /-- `client.deleteDevEnvironment(request)` (lines 117-121). -/
  | deleteDevEnvironmentCall (request : DevEnvLocator)
  /-- `client.updateDevEnvironment(request)` (lines 134-139). -/
  | updateDevEnvironmentCall (request : UpdateDevEnvironmentRequest)
  /-- `telemetry.record({ userId })` of the injector (line 160). -/
  | telemetryRecord (userId : String)
  /-- `telemetry.codecatalyst_connect.record({ source })` (line 265). -/
  | telemetryConnectRecord (source : String)
  /-- `telemetry.codecatalyst_updateWorkspaceSettings.record(...)`
  (line 229). -/
  | telemetryUpdateSettingsRecord (locationType : String)
  /-- `vscode.commands.executeCommand(name, ...args)`. -/
  | executeCommand (name : String) (args : List String)
  deriving DecidableEq, Repr

/-- Outcome of one embedded async command: its ordered trace of external
calls and its settled result. -/
abbrev Res (α : Type) : Type := List Event × Except Err α

/-- `client.identity` (`{ id, name }`), as read by the injector
(line 156) and `cloneCodeCatalystRepo` (line 66). -/
structure Identity where
  id : String
  name : String
  deriving DecidableEq, Repr

/-- The client surface `commands.ts` reads. `υ` is the (external)
response type of `updateDevEnvironment`, the only remote method whose
return value this layer propagates. -/
structure Client (υ : Type) where
  connected : Bool
  identity : Identity
  updateDevEnvironment : UpdateDevEnvironmentRequest → υ

/-- Modelled from the spec: the external telemetry constant
`AccountStatus.NotApplicable` (from the shared telemetry client, not part
of the given source); the claims use it symbolically. -/
def AccountStatus.NotApplicable : String := "n/a"

/-- The `userId` computed in the injector's `finally` block (line 156):
`codecatalyst;<identity id>` when connected, `AccountStatus.NotApplicable`
otherwise. -/
def userIdOf {υ : Type} (client : Client υ) : String :=
  if client.connected then "codecatalyst;" ++ client.identity.id
  else AccountStatus.NotApplicable

/-- `createClientInjector` (lines 142-163): awaits the factory, throws a
`ToolkitError` with code `NoConnection` when the client is not connected,
otherwise runs the wrapped command; in every case the `finally` block
records the telemetry `userId` after the body settles. -/
def createClientInjector {υ α : Type} (clientFactory : Unit → Client υ)
    (command : Client υ → Res α) : Res α :=
  let client := clientFactory ()
  let body : Res α :=
    if client.connected then command client
    else ([], Except.error (Err.toolkit "Not connected to CodeCatalyst" "NoConnection"))
  (Event.clientFactoryCall :: Event.connectivityCheck client.connected :: body.1
      ++ [Event.telemetryRecord (userIdOf client)],
    body.2)

/-- `listCommands` (lines 32-34). -/
def listCommands : Res Unit :=
  ([Event.executeCommand "workbench.action.quickOpen" ["> CodeCatalyst"]], Except.ok ())

/-- `vscode.Uri`: the only member this layer reads is `path`. -/
structure Uri where
  path : String
  deriving DecidableEq, Repr

/-- Responses of the external collaborators of `cloneCodeCatalystRepo`:
the `'repo'` wizard result, `auth.getPat(client)`, and the clone URL
returned by `getRepoCloneUrl`. -/
structure CloneDeps where
  selectResult : Option CodeCatalystRepo
  pat : String
  cloneUrl : String
  deriving DecidableEq, Repr

/-- JS `String.prototype.split` with a one-character separator, on the
character list of a string: splits into the (possibly empty) groups
between separators, never returning an empty list — `''.split('/')` is
`['']`. Structurally recursive so that concrete inputs evaluate. -/
def splitOnChar (sep : Char) : List Char → List (List Char)
  | [] => [[]]
  | c :: rest =>
    let r := splitOnChar sep rest
    if c = sep then [] :: r
    else (c :: r.headD []) :: r.tail

/-- `cloneCodeCatalystRepo` (lines 37-70). Without a `url`, the wizard
picks a repo (cancellation if it returns nothing); with a `url`, the
path minus its first character is split on `/`, the first piece is
discarded and pieces 2-4 must be nonempty (JS destructuring makes a
missing piece `undefined`, which like `''` fails the `!org` test, so a
missing piece and an empty piece behave alike; `getD _ []` mirrors
that). Then the PAT is fetched, `getRepoCloneUrl` is called, and the
returned URL is passed to the `git.clone` editor command. -/
def cloneCodeCatalystRepo {υ : Type} (client : Client υ) (url : Option Uri)
    (deps : CloneDeps) : Res Unit :=
  match url with
  | none =>
    match deps.selectResult with
    | none => ([Event.selectResource "repo"], Except.error (Err.cancellation "user"))
    | some r =>
      ([Event.selectResource "repo", Event.getPat,
        Event.getRepoCloneUrlCall r.org.name r.project.name r.name client.identity.name deps.pat,
        Event.executeCommand "git.clone" [deps.cloneUrl]],
        Except.ok ())
  | some u =>
    let parts := splitOnChar '/' (u.path.data.drop 1)
    let org := parts.getD 1 []
    let project := parts.getD 2 []
    let repo := parts.getD 3 []
    if org = [] ∨ project = [] ∨ repo = [] then
      ([], Except.error (Err.jsError "Invalid CodeCatalyst URL: unable to parse repository"))
    else
      ([Event.getPat,
        Event.getRepoCloneUrlCall (String.mk org) (String.mk project) (String.mk repo)
          client.identity.name deps.pat,
        Event.executeCommand "git.clone" [deps.cloneUrl]],
        Except.ok ())

/-- `openCodeCatalystResource` (lines 78-89): wizard-select a resource of
the given kind, cancellation if nothing is chosen, else open its URL. -/
def openCodeCatalystResource {υ : Type} (client : Client υ) (kind : String)
    (selectResult : Option CodeCatalystResource) : Res Unit :=
  match selectResult with
  | none => ([Event.selectResource kind], Except.error (Err.cancellation "user"))
  | some resource =>
    ([Event.selectResource kind, Event.openUrl resource], Except.ok ())

/-- Options of `stopDevEnv`: `{ readonly showPrompt?: boolean }`. -/
structure StopDevEnvOpts where
  showPrompt : Option Bool
  deriving DecidableEq, Repr

/-- Truthiness of `opts?.showPrompt` (line 96): true exactly when `opts`
is present, `showPrompt` is present, and it is `true`. -/
def showPromptRequested (opts : Option StopDevEnvOpts) : Bool :=
  (opts.bind fun o => o.showPrompt).getD false

/-- The localized default message of the stop confirmation (lines 98-101). -/
def stopDevEnvConfirmMessage : String :=
  "Stopping the dev environment will end all processes. Continue?"

/-- `stopDevEnv` (lines 91-114): when `opts?.showPrompt` is truthy, show
the confirmation (`confirmed` is the external user's answer) and throw a
user cancellation on decline; then send the stop request built from the
id triple. -/
def stopDevEnv {υ : Type} (client : Client υ) (devenv : DevEnvironmentId)
    (opts : Option StopDevEnvOpts) (confirmed : Bool) : Res Unit :=
  let request : DevEnvLocator := ⟨devenv.id, devenv.project.name, devenv.org.name⟩
  if showPromptRequested opts then
    if confirmed then
      ([Event.confirmationPrompt stopDevEnvConfirmMessage,
        Event.stopDevEnvironmentCall request], Except.ok ())
    else
      ([Event.confirmationPrompt stopDevEnvConfirmMessage],
        Except.error (Err.cancellation "user"))
  else
    ([Event.stopDevEnvironmentCall request], Except.ok ())

/-- `deleteDevEnv` (lines 116-122): one delete request from the id triple. -/
def deleteDevEnv {υ : Type} (client : Client υ) (devenv : DevEnvironmentId) : Res Unit :=
  ([Event.deleteDevEnvironmentCall ⟨devenv.id, devenv.project.name, devenv.org.name⟩],
    Except.ok ())

/-- The object literal of lines 135-138: the spread of `settings`
followed by the id triple (the spread and the triple have disjoint keys;
listing the triple last means it would win any overlap). -/
def mkUpdateRequest (devenv : DevEnvironmentId)
    (settings : DevEnvironmentSettings) : UpdateDevEnvironmentRequest :=
  { «alias» := settings.«alias»
    instanceType := settings.instanceType
    inactivityTimeoutMinutes := settings.inactivityTimeoutMinutes
    persistentStorage := settings.persistentStorage
    id := devenv.id
    projectName := devenv.project.name
    spaceName := devenv.org.name }

/-- `updateDevEnv` (lines 129-140): one update request, returning the
client's response. -/
def updateDevEnv {υ : Type} (client : Client υ) (devenv : DevEnvironmentId)
    (settings : DevEnvironmentSettings) : Res υ :=
  let request := mkUpdateRequest devenv settings
  ([Event.updateDevEnvironmentCall request],
    Except.ok (client.updateDevEnvironment request))

/-- `CodeCatalystCommands.stopDevEnv` (lines 218-222):
`withClient(stopDevEnv, ...).then(() => executeCommand('workbench.action.remote.close'))`.
A `.then` callback runs only when the promise fulfills; a rejection
propagates past it. -/
def commandsStopDevEnv {υ : Type} (clientFactory : Unit → Client υ)
    (devenv : DevEnvironmentId) (opts : Option StopDevEnvOpts) (confirmed : Bool) : Res Unit :=
  let r := createClientInjector clientFactory fun c => stopDevEnv c devenv opts confirmed
  match r.2 with
  | Except.ok _ =>
    (r.1 ++ [Event.executeCommand "workbench.action.remote.close" []], Except.ok ())
  | Except.error e => (r.1, Except.error e)

/-- `CodeCatalystCommands.deleteDevEnv` (lines 224-226). -/
def commandsDeleteDevEnv {υ : Type} (clientFactory : Unit → Client υ)
    (devenv : DevEnvironmentId) : Res Unit :=
  createClientInjector clientFactory fun c => deleteDevEnv c devenv

/-- `CodeCatalystCommands.updateDevEnv` (lines 228-232): a synchronous
telemetry record, then the injected update. -/
def commandsUpdateDevEnv {υ : Type} (clientFactory : Unit → Client υ)
    (devenv : DevEnvironmentId) (settings : DevEnvironmentSettings) : Res υ :=
  let r := createClientInjector clientFactory fun c => updateDevEnv c devenv settings
  (Event.telemetryUpdateSettingsRecord "remote" :: r.1, r.2)

/-- The message of the remote-context guard (lines 252-254). -/
def connectedToRemoteMessage : String :=
  "Cannot connect from a remote context. Try again from a local VS Code instance."

/-- `CodeCatalystCommands.openDevEnv` (lines 250-269). `remoteName`
models `vscode.env.remoteName`; `selectDevEnvResult` the wizard result
inside `selectDevEnv` (lines 281-289); `openDevEnvBody` the external
`openDevEnv` of `./model`, run through the injector. The guard throws
`ConnectedToRemote` before anything else happens; otherwise
`id ?? selectDevEnv()` resolves the devenv, a `codecatalyst_connect`
telemetry record is made when no `id` was given, and the body runs with
a client. -/
def commandsOpenDevEnv {υ : Type} (clientFactory : Unit → Client υ)
    (remoteName : Option String)
    (selectDevEnvResult : Option DevEnvironmentId)
    (openDevEnvBody : DevEnvironmentId → Option String → Client υ → Res Unit)
    (id : Option DevEnvironmentId) (targetPath : Option String) : Res Unit :=
  if remoteName = some "ssh-remote" then
    ([], Except.error (Err.toolkit connectedToRemoteMessage "ConnectedToRemote"))
  else
    let sel : Res DevEnvironmentId :=
      match id with
      | some d => ([], Except.ok d)
      | none =>
        let w := createClientInjector clientFactory fun _ =>
          ([Event.selectResource "devEnvironment"], Except.ok selectDevEnvResult)
        match w.2 with
        | Except.ok (some d) => (w.1, Except.ok d)
        | Except.ok none => (w.1, Except.error (Err.cancellation "user"))
        | Except.error e => (w.1, Except.error e)
    match sel.2 with
    | Except.error e => (sel.1, Except.error e)
    | Except.ok d =>
      let connectTrace :=
        if id = none then [Event.telemetryConnectRecord "CommandPalette"] else []
      let body := createClientInjector clientFactory (openDevEnvBody d targetPath)
      (sel.1 ++ connectTrace ++ body.1, body.2)

/-- Recognizes the injector's per-invocation telemetry record. -/
def isTelemetryRecord : Event → Bool
  | Event.telemetryRecord _ => true
  | _ => false

/-- Recognizes an await of the client factory. -/
def isClientFactoryCall : Event → Bool
  | Event.clientFactoryCall => true
  | _ => false

/-- Recognizes a request to the remote CodeCatalyst client. -/
def isRemoteApiCall : Event → Bool
  | Event.getRepoCloneUrlCall _ _ _ _ _ => true
  | Event.stopDevEnvironmentCall _ => true
  | Event.deleteDevEnvironmentCall _ => true
  | Event.updateDevEnvironmentCall _ => true
  | _ => false

/-- Recognizes the confirmation prompt. -/
def isConfirmationPrompt : Event → Bool
  | Event.confirmationPrompt _ => true
  | _ => false

/-- Recognizes the `workbench.action.remote.close` editor command. -/
def isRemoteClose : Event → Bool
  | Event.executeCommand "workbench.action.remote.close" _ => true
  | _ => false

/-- Sample identity for concrete evaluations. -/
def sampleIdentity : Identity := { id := "id0", name := "user0" }

/-- A connected client with `Nat` update responses. -/
def sampleClientOn : Client Nat :=
  { connected := true, identity := sampleIdentity, updateDevEnvironment := fun _ => 7 }

/-- A disconnected client with `Nat` update responses. -/
def sampleClientOff : Client Nat :=
  { connected := false, identity := sampleIdentity, updateDevEnvironment := fun _ => 7 }

/-- Sample dev environment id triple. -/
def sampleDevEnv : DevEnvironmentId :=
  { id := "env1", project := { name := "proj1" }, org := { name := "org1" } }

/-- Trace shape of one injector invocation: the factory await, the
connectivity check, the body's trace (empty when not connected), and the
final telemetry record. -/
theorem createClientInjector_trace {υ α : Type} (clientFactory : Unit → Client υ)
    (command : Client υ → Res α) :
    (createClientInjector clientFactory command).1 =
      Event.clientFactoryCall :: Event.connectivityCheck (clientFactory ()).connected ::
        ((if (clientFactory ()).connected then (command (clientFactory ())).1 else []) ++
          [Event.telemetryRecord (userIdOf (clientFactory ()))]) := by
  unfold createClientInjector
  cases hc : (clientFactory ()).connected <;> simp [hc]

/-- C1: for every invocation of the client injector, if the client
returned by the factory is not connected, the injector throws a
`ToolkitError` with code `NoConnection`, and the wrapped command is never
invoked (the invocation's whole behaviour is independent of the command). -/
theorem c1_noConnection_blocks_command {υ α : Type} (clientFactory : Unit → Client υ)
    (command : Client υ → Res α) (h : (clientFactory ()).connected = false) :
    (createClientInjector clientFactory command).2 =
      Except.error (Err.toolkit "Not connected to CodeCatalyst" "NoConnection") ∧
    ∀ command' : Client υ → Res α,
      createClientInjector clientFactory command = createClientInjector clientFactory command' := by
  refine ⟨by simp [createClientInjector, h], fun command' => ?_⟩
  simp [createClientInjector, h]

/-- Witness for C1: a concrete disconnected client. -/
theorem c1_noConnection_blocks_command_witness :
    (createClientInjector (fun _ => sampleClientOff) (fun _ => ([], Except.ok (0 : Nat)))).2 =
      Except.error (Err.toolkit "Not connected to CodeCatalyst" "NoConnection") :=
  (c1_noConnection_blocks_command (fun _ => sampleClientOff)
    (fun _ => ([], Except.ok 0)) rfl).1

/-- The last element of a trace of the shape
`y :: body ++ [a]` is `a`. -/
theorem getLast?_cons_append {α : Type} (y : α) (l : List α) (a : α) :
    (y :: (l ++ [a])).getLast? = some a := by
  have h : y :: (l ++ [a]) = (y :: l) ++ [a] := by simp
  rw [h, List.getLast?_concat]

/-- C2: every injector invocation over a command that itself records no
injector telemetry ends with exactly one `telemetry.record({ userId })`,
made after the command settles, whether the body returned, threw, or the
connectivity check failed; the `userId` is `codecatalyst;<identity id>`
when the client is connected and `AccountStatus.NotApplicable` otherwise. -/
theorem c2_telemetry_exactly_once {υ α : Type} (clientFactory : Unit → Client υ)
    (command : Client υ → Res α)
    (hclean : ((command (clientFactory ())).1.countP isTelemetryRecord) = 0) :
    ((createClientInjector clientFactory command).1.countP isTelemetryRecord) = 1 ∧
    (createClientInjector clientFactory command).1.getLast? =
      some (Event.telemetryRecord (userIdOf (clientFactory ()))) := by
  rw [createClientInjector_trace]
  cases hc : (clientFactory ()).connected <;>
    simp [hc, isTelemetryRecord, List.countP_cons, List.countP_append, hclean,
      getLast?_cons_append]

/-- Witness for C2: a concrete connected client and a command making one
remote call. -/
theorem c2_telemetry_exactly_once_witness :
    ((createClientInjector (fun _ => sampleClientOn)
        (fun c => deleteDevEnv c sampleDevEnv)).1.countP isTelemetryRecord) = 1 :=
  (c2_telemetry_exactly_once (fun _ => sampleClientOn)
    (fun c => deleteDevEnv c sampleDevEnv) rfl).1

/-- C5: every injector invocation awaits the client factory exactly once,
as its very first step — before the connectivity check (the second step)
and before any event of the wrapped command — given a command that never
awaits the factory itself. -/
theorem c5_factory_once_first {υ α : Type} (clientFactory : Unit → Client υ)
    (command : Client υ → Res α)
    (hclean : ((command (clientFactory ())).1.countP isClientFactoryCall) = 0) :
    ((createClientInjector clientFactory command).1.countP isClientFactoryCall) = 1 ∧
    ∃ rest : List Event,
      (createClientInjector clientFactory command).1 =
        Event.clientFactoryCall :: Event.connectivityCheck (clientFactory ()).connected :: rest ∧
      rest.countP isClientFactoryCall = 0 := by
  rw [createClientInjector_trace]
  refine ⟨?_, ⟨_, rfl, ?_⟩⟩ <;>
    cases hc : (clientFactory ()).connected <;>
      simp [hc, isClientFactoryCall, List.countP_cons, List.countP_append, hclean]

/-- Witness for C5: a concrete connected client and a command making one
remote call. -/
theorem c5_factory_once_first_witness :
    ((createClientInjector (fun _ => sampleClientOn)
        (fun c => deleteDevEnv c sampleDevEnv)).1.countP isClientFactoryCall) = 1 :=
  (c5_factory_once_first (fun _ => sampleClientOn)
    (fun c => deleteDevEnv c sampleDevEnv) rfl).1

/-- C3: whenever the user declines a prompt — the wizard returns no
resource in `cloneCodeCatalystRepo` (called without a url) or in
`openCodeCatalystResource`, or the confirmation is rejected in
`stopDevEnv` invoked with `showPrompt` — the operation throws
`CancellationError('user')` and makes no remote API call. -/
theorem c3_user_decline_cancels {υ : Type} :
    (∀ (client : Client υ) (deps : CloneDeps), deps.selectResult = none →
      (cloneCodeCatalystRepo client none deps).2 = Except.error (Err.cancellation "user") ∧
      ((cloneCodeCatalystRepo client none deps).1.countP isRemoteApiCall) = 0) ∧
    (∀ (client : Client υ) (kind : String),
      (openCodeCatalystResource client kind none).2 = Except.error (Err.cancellation "user") ∧
      ((openCodeCatalystResource client kind none).1.countP isRemoteApiCall) = 0) ∧
    (∀ (client : Client υ) (devenv : DevEnvironmentId) (opts : Option StopDevEnvOpts),
      showPromptRequested opts = true →
      (stopDevEnv client devenv opts false).2 = Except.error (Err.cancellation "user") ∧
      ((stopDevEnv client devenv opts false).1.countP isRemoteApiCall) = 0) := by
  refine ⟨fun client deps h => ?_, fun client kind => ?_, fun client devenv opts h => ?_⟩
  · simp [cloneCodeCatalystRepo, h, isRemoteApiCall]
  · simp [openCodeCatalystResource, isRemoteApiCall]
  · simp [stopDevEnv, h, isRemoteApiCall]

/-- Witness for C3: each of the three decline scenarios at concrete
inputs. -/
theorem c3_user_decline_cancels_witness :
    (cloneCodeCatalystRepo sampleClientOn none ⟨none, "pat0", "url0"⟩).2 =
      Except.error (Err.cancellation "user") ∧
    (openCodeCatalystResource sampleClientOn "repo" none).2 =
      Except.error (Err.cancellation "user") ∧
    (stopDevEnv sampleClientOn sampleDevEnv (some ⟨some true⟩) false).2 =
      Except.error (Err.cancellation "user") :=
  ⟨(c3_user_decline_cancels.1 sampleClientOn ⟨none, "pat0", "url0"⟩ rfl).1,
   (c3_user_decline_cancels.2.1 sampleClientOn "repo").1,
   (c3_user_decline_cancels.2.2 sampleClientOn sampleDevEnv (some ⟨some true⟩) rfl).1⟩

/-- C4: `deleteDevEnv`, `stopDevEnv` without a prompt requested, and
`updateDevEnv` each make exactly one client call, whose request is built
from exactly the devenv's id, project name and space name (plus, for
`updateDevEnv`, the given settings, with the id triple listed after the
settings spread so it would take precedence), and `updateDevEnv` returns
exactly the client's `updateDevEnvironment` response. -/
theorem c4_direct_passthrough {υ : Type} (client : Client υ) (devenv : DevEnvironmentId)
    (settings : DevEnvironmentSettings) (opts : Option StopDevEnvOpts) (confirmed : Bool)
    (hnoprompt : showPromptRequested opts = false) :
    deleteDevEnv client devenv =
      ([Event.deleteDevEnvironmentCall ⟨devenv.id, devenv.project.name, devenv.org.name⟩],
        Except.ok ()) ∧
    stopDevEnv client devenv opts confirmed =
      ([Event.stopDevEnvironmentCall ⟨devenv.id, devenv.project.name, devenv.org.name⟩],
        Except.ok ()) ∧
    mkUpdateRequest devenv settings =
      ⟨settings.«alias», settings.instanceType, settings.inactivityTimeoutMinutes,
        settings.persistentStorage, devenv.id, devenv.project.name, devenv.org.name⟩ ∧
    updateDevEnv client devenv settings =
      ([Event.updateDevEnvironmentCall (mkUpdateRequest devenv settings)],
        Except.ok (client.updateDevEnvironment (mkUpdateRequest devenv settings))) := by
  refine ⟨rfl, ?_, rfl, rfl⟩
  simp [stopDevEnv, hnoprompt]

/-- Witness for C4: concrete client, devenv and settings, no options. -/
theorem c4_direct_passthrough_witness :
    stopDevEnv sampleClientOn sampleDevEnv none true =
      ([Event.stopDevEnvironmentCall ⟨"env1", "proj1", "org1"⟩], Except.ok ()) :=
  (c4_direct_passthrough sampleClientOn sampleDevEnv
    ⟨none, none, none, none⟩ none true rfl).2.1

/-- C6: `stopDevEnv` shows the confirmation prompt if and only if
`opts?.showPrompt` is true; when `opts` is absent or `showPrompt` is not
true, it sends the stop request unconditionally, with no confirmation
flow in its trace. -/
theorem c6_prompt_iff_requested {υ : Type} (client : Client υ) (devenv : DevEnvironmentId)
    (opts : Option StopDevEnvOpts) (confirmed : Bool) :
    (((stopDevEnv client devenv opts confirmed).1.countP isConfirmationPrompt) ≠ 0 ↔
      showPromptRequested opts = true) ∧
    (showPromptRequested opts = false →
      stopDevEnv client devenv opts confirmed =
        ([Event.stopDevEnvironmentCall ⟨devenv.id, devenv.project.name, devenv.org.name⟩],
          Except.ok ())) := by
  cases h : showPromptRequested opts <;> cases confirmed <;>
    simp [stopDevEnv, h, isConfirmationPrompt]

/-- Witness for C6: absent options stop immediately; requested prompt
appears in the trace. -/
theorem c6_prompt_iff_requested_witness :
    stopDevEnv sampleClientOn sampleDevEnv none false =
      ([Event.stopDevEnvironmentCall ⟨"env1", "proj1", "org1"⟩], Except.ok ()) :=
  (c6_prompt_iff_requested sampleClientOn sampleDevEnv none false).2 rfl

/-- Reduction of `cloneCodeCatalystRepo` on an explicit URL to the split
of the path minus its first character. -/
theorem cloneCodeCatalystRepo_some {υ : Type} (client : Client υ) (p : String)
    (deps : CloneDeps) :
    cloneCodeCatalystRepo client (some ⟨p⟩) deps =
      if (splitOnChar '/' (p.data.drop 1)).getD 1 [] = [] ∨
          (splitOnChar '/' (p.data.drop 1)).getD 2 [] = [] ∨
          (splitOnChar '/' (p.data.drop 1)).getD 3 [] = [] then
        ([], Except.error (Err.jsError "Invalid CodeCatalyst URL: unable to parse repository"))
      else
        ([Event.getPat,
          Event.getRepoCloneUrlCall (String.mk ((splitOnChar '/' (p.data.drop 1)).getD 1 []))
            (String.mk ((splitOnChar '/' (p.data.drop 1)).getD 2 []))
            (String.mk ((splitOnChar '/' (p.data.drop 1)).getD 3 []))
            client.identity.name deps.pat,
          Event.executeCommand "git.clone" [deps.cloneUrl]],
          Except.ok ()) := rfl

/-- Positions 1-3 of a list are determined by what follows its head. -/
theorem getD_tail_eq {α : Type} (d : α) {l l' : List α} (h : l.drop 1 = l'.drop 1) :
    l.getD 1 d = l'.getD 1 d ∧ l.getD 2 d = l'.getD 2 d ∧ l.getD 3 d = l'.getD 3 d := by
  rw [List.drop_one, List.drop_one] at h
  cases l with
  | nil =>
    cases l' with
    | nil => exact ⟨rfl, rfl, rfl⟩
    | cons a t =>
      have ht : t = [] := (show ([] : List α) = t from h).symm
      subst ht; exact ⟨rfl, rfl, rfl⟩
  | cons a t =>
    cases l' with
    | nil =>
      have ht : t = [] := show t = ([] : List α) from h
      subst ht; exact ⟨rfl, rfl, rfl⟩
    | cons a' t' =>
      have ht : t = t' := show t = t' from h
      subst ht; exact ⟨rfl, rfl, rfl⟩

/-- C8: for every URL given to `cloneCodeCatalystRepo`, the path minus
its first character is split on `/`; the first piece is discarded (the
whole behaviour depends only on the later pieces), and when the second,
third or fourth piece is missing or empty the function throws
`Error('Invalid CodeCatalyst URL: unable to parse repository')` with an
empty trace — so before any client call; otherwise those three pieces
become the space, project and repository names of the
`getRepoCloneUrl` request. -/
theorem c8_url_parsing {υ : Type} (client : Client υ) (deps : CloneDeps) (path : String) :
    ((splitOnChar '/' (path.data.drop 1)).getD 1 [] = [] ∨
        (splitOnChar '/' (path.data.drop 1)).getD 2 [] = [] ∨
        (splitOnChar '/' (path.data.drop 1)).getD 3 [] = [] →
      cloneCodeCatalystRepo client (some ⟨path⟩) deps =
        ([], Except.error (Err.jsError "Invalid CodeCatalyst URL: unable to parse repository"))) ∧
    (¬((splitOnChar '/' (path.data.drop 1)).getD 1 [] = [] ∨
        (splitOnChar '/' (path.data.drop 1)).getD 2 [] = [] ∨
        (splitOnChar '/' (path.data.drop 1)).getD 3 [] = []) →
      cloneCodeCatalystRepo client (some ⟨path⟩) deps =
        ([Event.getPat,
          Event.getRepoCloneUrlCall (String.mk ((splitOnChar '/' (path.data.drop 1)).getD 1 []))
            (String.mk ((splitOnChar '/' (path.data.drop 1)).getD 2 []))
            (String.mk ((splitOnChar '/' (path.data.drop 1)).getD 3 []))
            client.identity.name deps.pat,
          Event.executeCommand "git.clone" [deps.cloneUrl]],
          Except.ok ())) ∧
    (∀ path' : String,
      (splitOnChar '/' (path'.data.drop 1)).drop 1 =
          (splitOnChar '/' (path.data.drop 1)).drop 1 →
      cloneCodeCatalystRepo client (some ⟨path'⟩) deps =
        cloneCodeCatalystRepo client (some ⟨path⟩) deps) := by
  refine ⟨fun h => ?_, fun h => ?_, fun path' h => ?_⟩
  · rw [cloneCodeCatalystRepo_some, if_pos h]
  · rw [cloneCodeCatalystRepo_some, if_neg h]
  · obtain ⟨h1, h2, h3⟩ := getD_tail_eq ([] : List Char) h
    rw [cloneCodeCatalystRepo_some, cloneCodeCatalystRepo_some, h1, h2, h3]

/-- Witness for C8: a malformed two-segment path and a well-formed
four-segment path. -/
theorem c8_url_parsing_witness :
    cloneCodeCatalystRepo sampleClientOn (some ⟨"/codecatalyst/org1"⟩)
        ⟨none, "pat0", "url0"⟩ =
      ([], Except.error (Err.jsError "Invalid CodeCatalyst URL: unable to parse repository")) ∧
    cloneCodeCatalystRepo sampleClientOn (some ⟨"/codecatalyst/org1/proj1/repo1"⟩)
        ⟨none, "pat0", "url0"⟩ =
      ([Event.getPat,
        Event.getRepoCloneUrlCall "org1" "proj1" "repo1" "user0" "pat0",
        Event.executeCommand "git.clone" ["url0"]],
        Except.ok ()) :=
  ⟨(c8_url_parsing sampleClientOn ⟨none, "pat0", "url0"⟩ "/codecatalyst/org1").1
      (by decide),
   (c8_url_parsing sampleClientOn ⟨none, "pat0", "url0"⟩ "/codecatalyst/org1/proj1/repo1").2.1
      (by decide)⟩

/-- C9: `CodeCatalystCommands.openDevEnv` invoked while the editor's
remote name is `ssh-remote` throws a `ToolkitError` with code
`ConnectedToRemote`, with an empty trace — before any dev-environment
selection, client resolution, or telemetry recording. -/
theorem c9_remote_guard {υ : Type} (clientFactory : Unit → Client υ)
    (remoteName : Option String) (selectDevEnvResult : Option DevEnvironmentId)
    (openDevEnvBody : DevEnvironmentId → Option String → Client υ → Res Unit)
    (id : Option DevEnvironmentId) (targetPath : Option String)
    (h : remoteName = some "ssh-remote") :
    commandsOpenDevEnv clientFactory remoteName selectDevEnvResult openDevEnvBody id targetPath =
      ([], Except.error (Err.toolkit connectedToRemoteMessage "ConnectedToRemote")) := by
  simp [commandsOpenDevEnv, h]

/-- Witness for C9: a concrete invocation from an `ssh-remote` context. -/
theorem c9_remote_guard_witness :
    commandsOpenDevEnv (fun _ => sampleClientOn) (some "ssh-remote") none
        (fun _ _ _ => ([], Except.ok ())) none none =
      ([], Except.error (Err.toolkit connectedToRemoteMessage "ConnectedToRemote")) :=
  c9_remote_guard (fun _ => sampleClientOn) (some "ssh-remote") none
    (fun _ _ _ => ([], Except.ok ())) none none rfl

/-- The injected stop flow never executes the remote-close editor
command itself. -/
theorem stopFlow_no_remoteClose {υ : Type} (clientFactory : Unit → Client υ)
    (devenv : DevEnvironmentId) (opts : Option StopDevEnvOpts) (confirmed : Bool) :
    ((createClientInjector clientFactory fun c =>
        stopDevEnv c devenv opts confirmed).1.countP isRemoteClose) = 0 := by
  rw [createClientInjector_trace]
  cases hc : (clientFactory ()).connected <;>
    cases h : showPromptRequested opts <;> cases confirmed <;>
      simp [hc, h, stopDevEnv, isRemoteClose, List.countP_cons, List.countP_append]

/-- C10: `CodeCatalystCommands.stopDevEnv` executes
`workbench.action.remote.close` exactly once, as the last step, when
the injected stop operation fulfills; when it rejects (user cancellation,
no connection, or any error) the remote-close command is never executed. -/
theorem c10_close_only_after_success {υ : Type} (clientFactory : Unit → Client υ)
    (devenv : DevEnvironmentId) (opts : Option StopDevEnvOpts) (confirmed : Bool) :
    ((∃ e, (commandsStopDevEnv clientFactory devenv opts confirmed).2 = Except.error e) →
      ((commandsStopDevEnv clientFactory devenv opts confirmed).1.countP isRemoteClose) = 0) ∧
    ((commandsStopDevEnv clientFactory devenv opts confirmed).2 = Except.ok () →
      ((commandsStopDevEnv clientFactory devenv opts confirmed).1.countP isRemoteClose) = 1 ∧
      (commandsStopDevEnv clientFactory devenv opts confirmed).1.getLast? =
        some (Event.executeCommand "workbench.action.remote.close" [])) := by
  have hin := stopFlow_no_remoteClose clientFactory devenv opts confirmed
  unfold commandsStopDevEnv
  cases hm : (createClientInjector clientFactory fun c =>
      stopDevEnv c devenv opts confirmed).2 with
  | ok v =>
    refine ⟨fun ⟨e, he⟩ => ?_, fun _ => ⟨?_, ?_⟩⟩
    · simp [hm] at he
    · simp [hm, List.countP_append, hin, isRemoteClose]
    · simp [hm, List.getLast?_concat]
  | error e =>
    refine ⟨fun _ => ?_, fun hok => ?_⟩
    · simp [hm, hin]
    · simp [hm] at hok

/-- Witness for C10: a concrete successful stop runs the remote close
last; its count is one. -/
theorem c10_close_only_after_success_witness :
    ((commandsStopDevEnv (fun _ => sampleClientOn) sampleDevEnv none true).1.countP
      isRemoteClose) = 1 ∧
    (commandsStopDevEnv (fun _ => sampleClientOn) sampleDevEnv none true).1.getLast? =
      some (Event.executeCommand "workbench.action.remote.close" []) :=
  (c10_close_only_after_success (fun _ => sampleClientOn) sampleDevEnv none true).2 rfl
